import Mathlib

/-!
Verification of the client-side trading-terminal engine
(`src/static/js/index.js` of the market_crash repository).

The JavaScript source is shallowly embedded: the `Store` snapshot becomes
the `GameState` structure, `Store.setState` becomes a pure function from a
snapshot and a partial update to the next snapshot, and the render /
polling / audio routines become pure functions that return their observable
effects (DOM field values, scheduled tones, issued requests) as data.
Numbers are modelled as rationals (`ℚ`), JavaScript `undefined`-able fields
as `Option`.
-/

namespace MarketCrash

/- ===========================
   Data model (src/static/js/index.js, Store.constructor, lines 164-183)
   =========================== -/

/-- One entry of `price_history`: `{round, price}`. -/
structure HistEntry where
  round : Nat
  price : ℚ
deriving DecidableEq

/-- One chat message: `{time, player, message, is_system}`.  `player` is
`null` for system messages, hence `Option`. -/
structure ChatMsg where
  time : String
  player : Option String
  message : String
  is_system : Bool
deriving DecidableEq

/-- One order-book row: `{price, vol}`. -/
structure OBOrder where
  price : ℚ
  vol : ℚ
deriving DecidableEq

/-- The order book: `{asks: [...], bids: [...]}`. -/
structure OrderBook where
  asks : List OBOrder
  bids : List OBOrder
deriving DecidableEq

/-- One leaderboard row: `{player_name, total_value, is_current}`. -/
structure LBEntry where
  player_name : String
  total_value : ℚ
  is_current : Bool
deriving DecidableEq

/-- The Store snapshot (`this.state` of `Store`, lines 166-181). -/
structure GameState where
  price : ℚ
  lastPrice : ℚ
  cash : ℚ
  shares : ℚ
  netWorth : ℚ
  round : Nat
  maxRounds : Nat
  isActive : Bool
  crashed : Bool
  history : List HistEntry
  chat : List ChatMsg
  news : List ChatMsg
  orderBook : OrderBook
  leaderboard : List LBEntry
deriving DecidableEq

/-- The per-session `CONFIG` object injected at page load. -/
structure Config where
  roomId : String
  initialPrice : ℚ
  initialCash : ℚ
  initialShares : ℚ

/-- The snapshot built in `Store.constructor` (lines 166-181). -/
def initialState (cfg : Config) : GameState where
  price := cfg.initialPrice
  lastPrice := cfg.initialPrice
  cash := cfg.initialCash
  shares := cfg.initialShares
  netWorth := cfg.initialCash + cfg.initialShares * cfg.initialPrice
  round := 0
  maxRounds := 10
  isActive := true
  crashed := false
  history := []
  chat := []
  news := []
  orderBook := ⟨[], []⟩
  leaderboard := []

/-- A partial update passed to `Store.setState`.  In JavaScript any subset
of the snapshot's fields may appear in the object literal; an absent field
is `none`.  A field explicitly set to a value is `some v`. -/
structure PartialUpdate where
  price : Option ℚ := none
  lastPrice : Option ℚ := none
  cash : Option ℚ := none
  shares : Option ℚ := none
  netWorth : Option ℚ := none
  round : Option Nat := none
  maxRounds : Option Nat := none
  isActive : Option Bool := none
  crashed : Option Bool := none
  history : Option (List HistEntry) := none
  chat : Option (List ChatMsg) := none
  news : Option (List ChatMsg) := none
  orderBook : Option OrderBook := none
  leaderboard : Option (List LBEntry) := none
deriving DecidableEq

/-- The empty partial `{}`. -/
def emptyUpdate : PartialUpdate := {}

/-- The spread `{ ...this.state, ...newState }` of `setState` (line 195):
shallow field-wise replacement, absent fields keep the current value. -/
def mergeState (s : GameState) (p : PartialUpdate) : GameState where
  price := p.price.getD s.price
  lastPrice := p.lastPrice.getD s.lastPrice
  cash := p.cash.getD s.cash
  shares := p.shares.getD s.shares
  netWorth := p.netWorth.getD s.netWorth
  round := p.round.getD s.round
  maxRounds := p.maxRounds.getD s.maxRounds
  isActive := p.isActive.getD s.isActive
  crashed := p.crashed.getD s.crashed
  history := p.history.getD s.history
  chat := p.chat.getD s.chat
  news := p.news.getD s.news
  orderBook := p.orderBook.getD s.orderBook
  leaderboard := p.leaderboard.getD s.leaderboard

/-- The function `Store.setState` (lines 189-203): capture `lastPrice` from the
pre-update `price` when the partial carries a `price`; merge; recompute
`netWorth` when the partial carried any of `cash`, `shares`, `price`. -/
def setState (s : GameState) (p : PartialUpdate) : GameState :=
  let s1 := if p.price.isSome then { s with lastPrice := s.price } else s
  let s2 := mergeState s1 p
  if p.cash.isSome || p.shares.isSome || p.price.isSome then
    { s2 with netWorth := s2.cash + s2.shares * s2.price }
  else
    s2

/-- Folding a sequence of `setState` calls over a starting snapshot. -/
def applyUpdates (s : GameState) (ps : List PartialUpdate) : GameState :=
  ps.foldl setState s

/-- The store's central invariant: `netWorth = cash + shares * price`. -/
def netWorthInv (s : GameState) : Prop :=
  s.netWorth = s.cash + s.shares * s.price

instance (s : GameState) : Decidable (netWorthInv s) := by
  unfold netWorthInv; infer_instance

/- A concrete session configuration used by witnesses, matching the
scenario of the spec: initial price 100, cash 1000, no shares. -/

/-- Example config for concrete evaluations. -/
def cfgEx : Config := ⟨"ROOM01", 100, 1000, 0⟩

/-- The spec's buy scenario as a server-confirmed partial:
`{cash:500, shares:5, price:102}`. -/
def pBuyEx : PartialUpdate := { cash := some 500, shares := some 5, price := some 102 }

/- ===========================
   C1 helper lemmas
   =========================== -/

theorem setState_preserves_netWorthInv (s : GameState) (p : PartialUpdate)
    (hs : netWorthInv s) (hp : p.netWorth = none) :
    netWorthInv (setState s p) := by
  unfold setState
  by_cases hc : (p.cash.isSome || p.shares.isSome || p.price.isSome) = true
  · rw [if_pos hc]
    unfold netWorthInv
    rfl
  · rw [if_neg hc]
    have hcash : p.cash = none := by
      cases hpc : p.cash with
      | none => rfl
      | some v => exact absurd (by simp [hpc]) hc
    have hshares : p.shares = none := by
      cases hpc : p.shares with
      | none => rfl
      | some v => exact absurd (by simp [hpc]) hc
    have hprice : p.price = none := by
      cases hpc : p.price with
      | none => rfl
      | some v => exact absurd (by simp [hpc]) hc
    unfold netWorthInv mergeState
    simp only [hcash, hshares, hprice, hp, Option.getD_none, Option.isSome_none,
      Bool.false_eq_true, if_false]
    exact hs

theorem applyUpdates_preserves_netWorthInv (s : GameState) (ps : List PartialUpdate)
    (hs : netWorthInv s) (hp : ∀ p ∈ ps, p.netWorth = none) :
    netWorthInv (applyUpdates s ps) := by
  induction ps generalizing s with
  | nil => exact hs
  | cons q qs ih =>
      exact ih (setState s q)
        (setState_preserves_netWorthInv s q hs (hp q (List.mem_cons_self q qs)))
        (fun p hpmem => hp p (List.mem_cons_of_mem q hpmem))

theorem initialState_netWorthInv (cfg : Config) : netWorthInv (initialState cfg) := by
  unfold netWorthInv initialState
  ring

/-- Claim C1: for every sequence of `setState` calls whose partials do not
themselves contain a `netWorth` field, the `netWorth` of the snapshot
reached after any number of those calls (i.e. after every notification)
equals `cash + shares * price` of that same snapshot. -/
theorem netWorth_invariant (cfg : Config) (ps : List PartialUpdate)
    (h : ∀ p ∈ ps, p.netWorth = none) (n : Nat) :
    netWorthInv (applyUpdates (initialState cfg) (ps.take n)) := by
  refine applyUpdates_preserves_netWorthInv _ _ (initialState_netWorthInv cfg) ?_
  intro p hpmem
  exact h p (List.take_subset n ps hpmem)

/-- Witness for C1 at the spec's concrete buy scenario: starting from
`{price:100, cash:1000, shares:0}` and applying `{cash:500, shares:5,
price:102}`, the invariant holds (`netWorth = 1010`). -/
theorem netWorth_invariant_witness :
    (∀ p ∈ [pBuyEx], p.netWorth = none) ∧
      netWorthInv (applyUpdates (initialState cfgEx) ([pBuyEx].take 1)) ∧
      (applyUpdates (initialState cfgEx) ([pBuyEx].take 1)).netWorth = 1010 :=
  ⟨by decide, netWorth_invariant cfgEx [pBuyEx] (by decide) 1, by
    norm_num [applyUpdates, setState, mergeState, initialState, pBuyEx, cfgEx]⟩

/- ===========================
   C5: lastPrice capture in setState
   =========================== -/

/-- A partial that carries only an explicit `lastPrice` field, exercising
the shallow-merge path of `setState` with no `price` present. -/
def pLastOnly : PartialUpdate := { lastPrice := some 999 }

/-- Counterexample for C5 as stated: the partial `{lastPrice: 999}` contains
no `price` field, yet `setState` changes `lastPrice` (the spread on line 195
overwrites it), so "whose partial includes no price field, lastPrice is
unchanged" fails. -/
theorem setState_lastPrice_counterexample :
    pLastOnly.price = none ∧
      (setState (initialState cfgEx) pLastOnly).lastPrice ≠ (initialState cfgEx).lastPrice := by
  constructor
  · rfl
  · show (999 : ℚ) ≠ 100
    norm_num

/-- Claim C5, amended: for a `setState` call whose partial carries no explicit
`lastPrice` field, if the partial carries a `price` then the new `lastPrice`
is the pre-update `price`; if it carries no `price` either, `lastPrice` is
unchanged. -/
theorem setState_lastPrice_capture (s : GameState) (p : PartialUpdate)
    (hnl : p.lastPrice = none) :
    (∀ v, p.price = some v → (setState s p).lastPrice = s.price) ∧
      (p.price = none → (setState s p).lastPrice = s.lastPrice) := by
  constructor
  · intro v hv
    unfold setState mergeState
    simp [hv, hnl]
  · intro hv
    unfold setState mergeState
    simp only [hv, hnl, Option.isSome_none, Bool.false_eq_true, if_false, Option.getD_none,
      Bool.or_false]
    split <;> rfl

/-- Witness for C5's amended theorem at the spec's buy partial (price 102
arriving on a snapshot priced 100) and at the empty partial. -/
theorem setState_lastPrice_capture_witness :
    pBuyEx.lastPrice = none ∧ pBuyEx.price = some 102 ∧
      (setState (initialState cfgEx) pBuyEx).lastPrice = (initialState cfgEx).price ∧
      emptyUpdate.lastPrice = none ∧ emptyUpdate.price = none ∧
      (setState (initialState cfgEx) emptyUpdate).lastPrice = (initialState cfgEx).lastPrice :=
  ⟨rfl, rfl,
    (setState_lastPrice_capture (initialState cfgEx) pBuyEx rfl).1 102 rfl,
    rfl, rfl,
    (setState_lastPrice_capture (initialState cfgEx) emptyUpdate rfl).2 rfl⟩

/- ===========================
   Audio engine (lines 32-84)
   =========================== -/

/-- The named sound cues of the engine. -/
inductive Cue
  | tick
  | buy
  | sell
  | alert
  | crash
deriving DecidableEq

/-- One scheduled oscillator burst: frequency, waveform, duration (s),
volume, and the `setTimeout` delay (ms) before it is scheduled. -/
structure Tone where
  freq : ℚ
  wave : String
  duration : ℚ
  vol : ℚ
  delayMs : Nat
deriving DecidableEq

/-- The method `AudioEngine.playTone` (lines 41-57): schedules one burst, or nothing
when the engine is disabled.  The burst list is the observable playback. -/
def playTone (enabled : Bool) (freq : ℚ) (wave : String) (duration : ℚ)
    (vol : ℚ) (delayMs : Nat) : List Tone :=
  if enabled then [⟨freq, wave, duration, vol, delayMs⟩] else []

/-- The cue `playTick` (line 59). -/
def playTick (enabled : Bool) : List Tone :=
  playTone enabled 800 "sine" (5/100) (2/10) 0

/-- The cue `playBuy` (line 60): a burst now and a second one 80 ms later. -/
def playBuy (enabled : Bool) : List Tone :=
  playTone enabled 1200 "triangle" (1/10) (4/10) 0 ++
    playTone enabled 1600 "triangle" (2/10) (4/10) 80

/-- The cue `playSell` (line 61). -/
def playSell (enabled : Bool) : List Tone :=
  playTone enabled 600 "sawtooth" (1/10) (4/10) 0 ++
    playTone enabled 400 "sawtooth" (2/10) (4/10) 80

/-- The cue `playAlert` (lines 62-65). -/
def playAlert (enabled : Bool) : List Tone :=
  playTone enabled 880 "square" (3/10) (5/10) 0 ++
    playTone enabled 880 "square" (3/10) (5/10) 400

/-- The single descending sweep of `playCrash` (lines 66-78): start and end
frequency, duration in seconds, start volume. -/
structure CrashSweep where
  freqFrom : ℚ
  freqTo : ℚ
  duration : ℚ
  vol : ℚ
deriving DecidableEq

/-- The cue `playCrash` (lines 66-78): one long descending sweep, or nothing when
the engine is disabled. -/
def playCrash (enabled : Bool) : List CrashSweep :=
  if enabled then [⟨100, 10, 2, 8/10⟩] else []

/-- The method `AudioEngine.toggle` (lines 80-83): flips the stored `enabled` flag and
returns it.  The pair is (new stored flag, returned value). -/
def toggle (enabled : Bool) : Bool × Bool :=
  (!enabled, !enabled)

/- ===========================
   C9: toggle and mute gating
   =========================== -/

/-- Counterexample for C9 as stated: `toggle` is not idempotent.  Starting
from the enabled engine, toggling twice stores `true` while toggling once
stores `false`. -/
theorem toggle_not_idempotent :
    ¬ ((toggle (toggle true).1).1 = (toggle true).1) := by
  decide

/-- Claim C9, amended: `toggle` is an involution (toggling twice restores
the original enabled state, so repeated toggling is safe), it returns
exactly the newly stored state, and when the flag is disabled no cue
(tick, buy, sell, alert, crash) produces any playback. -/
theorem toggle_involution_mute_gates (e : Bool) :
    (toggle (toggle e).1).1 = e ∧ (toggle e).2 = (toggle e).1 ∧
      playTick false = [] ∧ playBuy false = [] ∧ playSell false = [] ∧
      playAlert false = [] ∧ playCrash false = [] := by
  cases e <;> exact ⟨rfl, rfl, rfl, rfl, rfl, rfl, rfl⟩

/- ===========================
   C2: price delta rendering and the tick cue (render, lines 390-407)
   =========================== -/

/-- What the price-delta section of `UIController.render` writes: the delta
wrapper's class (`none` when the branch leaves it untouched), the computed
percentage, the main price element's class, and the cues it invokes. -/
structure PriceRender where
  deltaClass : Option String
  deltaPct : ℚ
  priceClass : String
  cues : List Cue
deriving DecidableEq

/-- The price-delta branch of `UIController.render` (lines 390-407):
strictly greater → bull styling and a tick; strictly smaller → bear styling
and a tick; equal → neutral styling and no cue. -/
def renderPriceDelta (s : GameState) : PriceRender :=
  let delta := (s.price - s.lastPrice) / s.lastPrice * 100
  if s.price > s.lastPrice then
    ⟨some "price-delta flex-center gap-sm text-bull", delta,
      "main-price text-bull flash-text-up", [Cue.tick]⟩
  else if s.price < s.lastPrice then
    ⟨some "price-delta flex-center gap-sm text-bear", delta,
      "main-price text-bear flash-text-down", [Cue.tick]⟩
  else
    ⟨none, delta, "main-price text-white", []⟩

/-- Claim C2: on every render, the tick cue is invoked exactly when the
snapshot's `price` differs from its `lastPrice`; when they are equal no cue
at all is invoked and the price element gets the neutral class. -/
theorem tick_cue_iff_price_change (s : GameState) :
    (Cue.tick ∈ (renderPriceDelta s).cues ↔ s.price ≠ s.lastPrice) ∧
      (s.price = s.lastPrice →
        (renderPriceDelta s).cues = [] ∧
          (renderPriceDelta s).priceClass = "main-price text-white") := by
  unfold renderPriceDelta
  rcases lt_trichotomy s.price s.lastPrice with hlt | heq | hgt
  · rw [if_neg (not_lt_of_lt hlt), if_pos hlt]
    exact ⟨by simp [ne_of_lt hlt], fun h => absurd h (ne_of_lt hlt)⟩
  · rw [if_neg (by rw [heq]; exact lt_irrefl _), if_neg (by rw [heq]; exact lt_irrefl _)]
    exact ⟨by simp [heq], fun _ => ⟨rfl, rfl⟩⟩
  · rw [if_pos hgt]
    exact ⟨by simp [(ne_of_lt hgt).symm], fun h => absurd h (ne_of_lt hgt).symm⟩

/-- Witness for C2 at the spec's buy scenario (price 102, lastPrice 100:
a tick fires) and at the initial snapshot (price = lastPrice: no cue). -/
theorem tick_cue_iff_price_change_witness :
    Cue.tick ∈ (renderPriceDelta (setState (initialState cfgEx) pBuyEx)).cues ∧
      (renderPriceDelta (initialState cfgEx)).cues = [] :=
  ⟨(tick_cue_iff_price_change (setState (initialState cfgEx) pBuyEx)).1.mpr
      (by norm_num [setState, mergeState, initialState, pBuyEx, cfgEx]),
    ((tick_cue_iff_price_change (initialState cfgEx)).2 rfl).1⟩

/- ===========================
   C10: setState always notifies every subscriber (lines 185-207)
   =========================== -/

/-- Running `Store.setState` together with `Store.notify` (lines 189-207):
the next snapshot plus the outputs of every registered listener, each
applied (in registration order) to the full new snapshot.  `Store.notify`
is `this.listeners.forEach(fn => fn(this.state))`. -/
def setStateRun {α : Type} (ls : List (GameState → α)) (s : GameState)
    (p : PartialUpdate) : GameState × List α :=
  let s2 := setState s p
  (s2, ls.map (fun fn => fn s2))

/-- Claim C10: every `setState` call, including one with the empty partial,
synchronously invokes each registered subscriber exactly once, in
registration order, with the full new snapshot; nothing suppresses the
notification, and the empty partial leaves the snapshot unchanged. -/
theorem setState_always_notifies {α : Type} (ls : List (GameState → α))
    (s : GameState) (p : PartialUpdate) :
    (setStateRun ls s p).2.length = ls.length ∧
      (∀ i : Nat, (setStateRun ls s p).2[i]? =
        (ls[i]?).map (fun fn => fn (setState s p))) ∧
      setState s emptyUpdate = s := by
  refine ⟨List.length_map ls _, fun i => ?_, rfl⟩
  simp [setStateRun]

/- ===========================
   C3: game-over sequence (render lines 438-450, triggerGameOver 524-538)
   =========================== -/

/-- The renderer's game-over bookkeeping: whether the overlay modal has the
`active` class, the pending `setTimeout` activation times (ms), and how
many crash / alert tones the game-over path has played. -/
structure GOState where
  modalActive : Bool
  pending : List Nat
  crashTones : Nat
  alertTones : Nat
deriving DecidableEq

/-- Initial game-over bookkeeping: modal hidden, nothing scheduled. -/
def initGOState : GOState := ⟨false, [], 0, 0⟩

/-- The browser firing every `setTimeout(() => modal.classList.add('active'),
1500)` callback whose scheduled time has been reached by `now`. -/
def fireDue (now : Nat) (st : GOState) : GOState :=
  if st.pending.any (fun t => t ≤ now) then
    { st with modalActive := true, pending := st.pending.filter (fun t => ¬ t ≤ now) }
  else st

/-- The method `UIController.triggerGameOver` (lines 524-538) at time `now`: return
early when the modal already has the `active` class; otherwise play the
crash tone (title CRASHED) or the alert tone, and schedule the class add
1500 ms later. -/
def triggerGameOver (title : String) (now : Nat) (st : GOState) : GOState :=
  if st.modalActive then st
  else
    let st2 := if title = "CRASHED" then { st with crashTones := st.crashTones + 1 }
               else { st with alertTones := st.alertTones + 1 }
    { st2 with pending := st2.pending ++ [now + 1500] }

/-- The lifecycle branch of `UIController.render` (lines 438-450) executed
at time `now` on snapshot `s`, after any due timers have fired. -/
def renderLifecycle (now : Nat) (s : GameState) (st : GOState) : GOState :=
  let st1 := fireDue now st
  if s.crashed then triggerGameOver "CRASHED" now st1
  else if !s.isActive && decide (s.round ≥ s.maxRounds) then
    triggerGameOver "COMPLETED" now st1
  else st1

/-- A sequence of renders, each tagged with the time (ms) at which the
notification fires. -/
def runRenders (events : List (Nat × GameState)) (st : GOState) : GOState :=
  events.foldl (fun acc e => renderLifecycle e.1 e.2 acc) st

/-- A crashed snapshot as delivered by the poll loop. -/
def crashedStateEx : GameState := { initialState cfgEx with crashed := true }

/-- Claim C3 fails on the code: two consecutive poll renders with
`crashed:true`, 1000 ms apart (the default poll cadence), play the crash
tone twice, because the overlay only receives its `active` class 1500 ms
after the first trigger and the guard tests exactly that class. -/
theorem gameOver_crash_tone_plays_twice :
    (runRenders [(0, crashedStateEx), (1000, crashedStateEx)] initGOState).crashTones = 2 ∧
      (runRenders [(0, crashedStateEx), (1000, crashedStateEx)] initGOState).modalActive = false := by
  constructor <;> rfl

/- ===========================
   C4: the polling loop (pollState, lines 556-580)
   =========================== -/

/-- The `room` object of a well-formed wire payload. -/
structure WireRoom where
  current_price : ℚ
  round_number : Nat
  is_active : Bool
  crash_occurred : Bool
deriving DecidableEq

/-- The `player` object of a well-formed wire payload. -/
structure WirePlayer where
  cash : ℚ
  shares : ℚ
deriving DecidableEq

/-- A parsed JSON response body.  Any of the nested objects may be missing
(`none`), which in the JavaScript is an `undefined` property. -/
structure WireData where
  success : Bool := false
  error : Option String := none
  room : Option WireRoom := none
  player : Option WirePlayer := none
  price_history : Option (List HistEntry) := none
  chat : Option (List ChatMsg) := none
  order_book : Option OrderBook := none
  leaderboard : Option (List LBEntry) := none
deriving DecidableEq

/-- What one synchronization tick did besides updating the store. -/
inductive PollAction
  | updated
  | navigated
  | caught
  | ignored
deriving DecidableEq

/-- The loop body `pollState` (lines 556-580) applied to the store snapshot `s`.  `resp =
none` models the `fetch`/`res.json()` call throwing (network error or
unparseable body), which the `catch` logs.  On `success` with `room` or
`player` missing, reading `data.room.current_price` (or `data.player.cash`)
throws a TypeError inside the `try`, which the same `catch` logs before
`setState` runs.  Top-level collection fields may be missing without
throwing: they arrive as `undefined` and the merge skips them.  On
`success:false` the one distinguished error is `"Session expired"`
(navigation); anything else falls through with no store write. -/
def pollTick (resp : Option WireData) (s : GameState) : GameState × PollAction :=
  match resp with
  | none => (s, .caught)
  | some d =>
    if d.success then
      match d.room, d.player with
      | some room, some player =>
          (setState s
            { price := some room.current_price,
              round := some room.round_number,
              isActive := some room.is_active,
              crashed := some room.crash_occurred,
              cash := some player.cash,
              shares := some player.shares,
              history := d.price_history,
              chat := d.chat,
              orderBook := d.order_book,
              leaderboard := d.leaderboard }, .updated)
      | _, _ => (s, .caught)
    else if d.error = some "Session expired" then (s, .navigated)
    else (s, .ignored)

/-- Claim C4: whenever the synchronization tick's request throws, or its
response is malformed (unparseable, or missing the `room`/`player` objects
on success), or it reports `success:false` with an error other than
"Session expired", the store snapshot after the tick is the snapshot
before the tick. -/
theorem pollTick_failure_preserves_state (resp : Option WireData) (s : GameState)
    (h : resp = none ∨
      ∃ d, resp = some d ∧
        ((d.success = true ∧ (d.room = none ∨ d.player = none)) ∨
          (d.success = false ∧ d.error ≠ some "Session expired"))) :
    (pollTick resp s).1 = s := by
  rcases h with hnone | ⟨d, hd, hcase⟩
  · rw [hnone]; rfl
  · subst hd
    rcases hcase with ⟨hsucc, hmiss⟩ | ⟨hsucc, herr⟩
    · rcases hmiss with hroom | hplayer
      · cases hp : d.player <;> simp [pollTick, hsucc, hroom, hp]
      · cases hr : d.room <;> simp [pollTick, hsucc, hplayer, hr]
    · simp [pollTick, hsucc, herr]

/-- Witness for C4: a thrown request (`none`), a success payload missing its
`room`, and a failure payload with a non-distinguished error all leave the
concrete initial snapshot untouched. -/
theorem pollTick_failure_preserves_state_witness :
    (pollTick none (initialState cfgEx)).1 = initialState cfgEx ∧
      (pollTick (some { success := true }) (initialState cfgEx)).1 = initialState cfgEx ∧
      (pollTick (some { success := false, error := some "Room not found" })
          (initialState cfgEx)).1 = initialState cfgEx :=
  ⟨pollTick_failure_preserves_state none (initialState cfgEx) (Or.inl rfl),
    pollTick_failure_preserves_state (some { success := true }) (initialState cfgEx)
      (Or.inr ⟨_, rfl, Or.inl ⟨rfl, Or.inl rfl⟩⟩),
    pollTick_failure_preserves_state (some { success := false, error := some "Room not found" })
      (initialState cfgEx) (Or.inr ⟨_, rfl, Or.inr ⟨rfl, by decide⟩⟩)⟩

/- ===========================
   C7: trade submission pre-checks (executeTrade, lines 321-350)
   =========================== -/

/-- The two trade endpoints. -/
inductive TradeKind
  | buy
  | sell
deriving DecidableEq

/-- The observable outcome of `executeTrade` before any response arrives:
either a local rejection toast (and no `fetch`), or a POST to
`/api/room/{roomId}/buy|sell` with the given share count. -/
inductive TradeAction
  | toast (msg : String)
  | request (kind : TradeKind) (shares : Int)
deriving DecidableEq

/-- The method `UIController.executeTrade` (lines 321-350) up to the point the request
is issued.  `amount` is the result of `parseInt` on the input field:
`none` for NaN, otherwise an integer.  `!amount || amount <= 0` rejects
NaN and every non-positive value; then the optimistic buy / sell checks
run against the current snapshot. -/
def executeTrade (kind : TradeKind) (amount : Option Int) (s : GameState) : TradeAction :=
  match amount with
  | none => .toast "Invalid amount"
  | some a =>
    if a ≤ 0 then .toast "Invalid amount"
    else if kind = .buy ∧ (a : ℚ) * s.price > s.cash then .toast "Insufficient funds"
    else if kind = .sell ∧ (a : ℚ) > s.shares then .toast "Insufficient shares"
    else .request kind a

/-- Claim C7: whenever the parsed amount is missing or non-positive, or the
buy cost exceeds the current cash, or the sell amount exceeds the current
shares, `executeTrade` produces a local toast and never a network
request. -/
theorem executeTrade_local_reject (kind : TradeKind) (amount : Option Int) (s : GameState)
    (h : amount = none ∨
      ∃ a, amount = some a ∧
        (a ≤ 0 ∨
          (kind = .buy ∧ (a : ℚ) * s.price > s.cash) ∨
          (kind = .sell ∧ (a : ℚ) > s.shares))) :
    ∃ msg, executeTrade kind amount s = .toast msg := by
  rcases h with hnone | ⟨a, ha, hcase⟩
  · exact ⟨"Invalid amount", by rw [hnone]; rfl⟩
  · subst ha
    rcases hcase with hle | ⟨hbuy, hcost⟩ | ⟨hsell, hshares⟩
    · exact ⟨"Invalid amount", by simp [executeTrade, hle]⟩
    · by_cases hle : a ≤ 0
      · exact ⟨"Invalid amount", by simp [executeTrade, hle]⟩
      · exact ⟨"Insufficient funds", by simp [executeTrade, hle, hbuy, hcost]⟩
    · by_cases hle : a ≤ 0
      · exact ⟨"Invalid amount", by simp [executeTrade, hle]⟩
      · exact ⟨"Insufficient shares", by simp [executeTrade, hle, hsell, hshares]⟩

/-- Witness for C7: on the initial snapshot (price 100, cash 1000, 0
shares), a NaN amount, a zero buy, an 11-share buy (cost 1100 > 1000) and
a 1-share sell (no shares held) are each rejected locally. -/
theorem executeTrade_local_reject_witness :
    (∃ msg, executeTrade .buy none (initialState cfgEx) = .toast msg) ∧
      (∃ msg, executeTrade .buy (some 0) (initialState cfgEx) = .toast msg) ∧
      (∃ msg, executeTrade .buy (some 11) (initialState cfgEx) = .toast msg) ∧
      (∃ msg, executeTrade .sell (some 1) (initialState cfgEx) = .toast msg) :=
  ⟨executeTrade_local_reject .buy none (initialState cfgEx) (Or.inl rfl),
    executeTrade_local_reject .buy (some 0) (initialState cfgEx)
      (Or.inr ⟨0, rfl, Or.inl le_rfl⟩),
    executeTrade_local_reject .buy (some 11) (initialState cfgEx)
      (Or.inr ⟨11, rfl, Or.inr (Or.inl ⟨rfl, by norm_num [initialState, cfgEx]⟩)⟩),
    executeTrade_local_reject .sell (some 1) (initialState cfgEx)
      (Or.inr ⟨1, rfl, Or.inr (Or.inr ⟨rfl, by norm_num [initialState, cfgEx]⟩)⟩)⟩

/- ===========================
   C6: order-book spread (renderOrderBook, lines 456-485)
   =========================== -/

/-- The ask rows actually rendered: `book.asks.slice(-8)` (line 460), the
last eight entries.  The server supplies asks in descending price order
(lowest ask last, displayed at the bottom adjacent to the bids), so these
are the eight asks nearest the market. -/
def displayedAsks (b : OrderBook) : List OBOrder :=
  b.asks.drop (b.asks.length - 8)

/-- The bid rows actually rendered: `book.bids.slice(0, 8)` (line 470).
The server supplies bids in descending price order (highest bid first). -/
def displayedBids (b : OrderBook) : List OBOrder :=
  b.bids.take 8

/-- The spread section of `renderOrderBook` (lines 480-484): when both
sides are non-empty it writes `spread = asks[asks.length-1].price -
bids[0].price` and `pct = spread / bids[0].price * 100`; otherwise the
element is left untouched (`none`). -/
def spreadDisplay (b : OrderBook) : Option (ℚ × ℚ) :=
  match b.asks.getLast?, b.bids.head? with
  | some a, some bid =>
      some (a.price - bid.price, (a.price - bid.price) / bid.price * 100)
  | _, _ => none

/-- Sorted descending by price: each later row has a price no larger than
each earlier one. -/
def descByPrice (l : List OBOrder) : Prop :=
  l.Pairwise (fun o1 o2 => o2.price ≤ o1.price)

theorem getLast?_drop_eq {α : Type} (l : List α) (k : Nat) (h : k < l.length) :
    (l.drop k).getLast? = l.getLast? := by
  have hne : l.drop k ≠ [] := by
    rw [ne_eq, List.drop_eq_nil_iff]
    omega
  conv_rhs => rw [← List.take_append_drop k l]
  rw [List.getLast?_append_of_ne_nil _ hne]

theorem desc_getLast_min {l : List OBOrder} (hl : descByPrice l) {a : OBOrder}
    (ha : l.getLast? = some a) : ∀ o ∈ l, a.price ≤ o.price := by
  induction l with
  | nil => cases ha
  | cons x xs ih =>
      cases xs with
      | nil =>
          have hax : a = x := by simpa using ha.symm
          subst hax
          intro o ho
          rcases List.mem_singleton.mp ho with rfl
          exact le_refl _
      | cons y ys =>
          rw [List.getLast?_cons_cons] at ha
          have htail : descByPrice (y :: ys) := (List.pairwise_cons.mp hl).2
          have hrel := (List.pairwise_cons.mp hl).1
          have hmin := ih htail ha
          have hamem : a ∈ y :: ys := List.mem_of_mem_getLast? ha
          intro o ho
          rcases List.mem_cons.mp ho with rfl | ho2
          · exact hrel a hamem
          · exact hmin o ho2

theorem desc_head_max {l : List OBOrder} (hl : descByPrice l) {x : OBOrder}
    (hx : l.head? = some x) : ∀ o ∈ l, o.price ≤ x.price := by
  cases l with
  | nil => cases hx
  | cons y ys =>
      have hxy : x = y := (Option.some_inj.mp hx).symm
      subst hxy
      intro o ho
      rcases List.mem_cons.mp ho with rfl | ho2
      · exact le_refl _
      · exact (List.pairwise_cons.mp hl).1 o ho2

theorem head?_take_eight {α : Type} (l : List α) : (l.take 8).head? = l.head? := by
  cases l <;> rfl

/-- Claim C6: when both sides of the order book are non-empty and each side
arrives sorted in descending price order, the displayed spread is the
lowest displayed ask price minus the highest displayed bid price, with the
percentage spread / highest-bid × 100; when either side is empty nothing
is written. -/
theorem spread_lowest_ask_minus_highest_bid (b : OrderBook)
    (ha : descByPrice b.asks) (hb : descByPrice b.bids) :
    (b.asks ≠ [] → b.bids ≠ [] →
      ∃ la hbid,
        la ∈ displayedAsks b ∧ hbid ∈ displayedBids b ∧
          (∀ o ∈ displayedAsks b, la.price ≤ o.price) ∧
          (∀ o ∈ displayedBids b, o.price ≤ hbid.price) ∧
          spreadDisplay b =
            some (la.price - hbid.price, (la.price - hbid.price) / hbid.price * 100)) ∧
      ((b.asks = [] ∨ b.bids = []) → spreadDisplay b = none) := by
  constructor
  · intro hane hbne
    obtain ⟨la, hla⟩ : ∃ la, b.asks.getLast? = some la :=
      ⟨b.asks.getLast hane, List.getLast?_eq_getLast b.asks hane⟩
    obtain ⟨hbid, hhb⟩ : ∃ x, b.bids.head? = some x :=
      ⟨b.bids.head hbne, List.head?_eq_head hbne⟩
    refine ⟨la, hbid, ?_, ?_, ?_, ?_, ?_⟩
    · apply List.mem_of_mem_getLast?
      show (displayedAsks b).getLast? = some la
      rw [displayedAsks,
        getLast?_drop_eq _ _ (Nat.sub_lt (List.length_pos.mpr hane) (by norm_num))]
      exact hla
    · apply List.mem_of_mem_head?
      show (displayedBids b).head? = some hbid
      rw [displayedBids, head?_take_eight]
      exact hhb
    · intro o ho
      exact desc_getLast_min ha hla o (List.drop_subset _ b.asks ho)
    · intro o ho
      exact desc_head_max hb hhb o (List.take_subset _ b.bids ho)
    · unfold spreadDisplay
      rw [hla, hhb]
  · intro hempty
    unfold spreadDisplay
    rcases hempty with he | he
    · rw [he]
      cases b.bids.head? <;> rfl
    · rw [he]
      cases b.asks.getLast? <;> rfl

/-- The spec's order-book scenario: one ask at 101, one bid at 99. -/
def bookEx : OrderBook := ⟨[⟨101, 50⟩], [⟨99, 30⟩]⟩

/-- Witness for C6 at the spec's scenario: spread 2 and percentage 200/99
(≈ 2.02%), and the displayed extremes are the single rows themselves. -/
theorem spread_lowest_ask_minus_highest_bid_witness :
    descByPrice bookEx.asks ∧ descByPrice bookEx.bids ∧
      spreadDisplay bookEx = some (2, 200/99) ∧
      ((bookEx.asks = [] ∨ bookEx.bids = []) → spreadDisplay bookEx = none) := by
  have h1 : descByPrice bookEx.asks := List.pairwise_singleton _ _
  have h2 : descByPrice bookEx.bids := List.pairwise_singleton _ _
  have h := spread_lowest_ask_minus_highest_bid bookEx h1 h2
  refine ⟨h1, h2, ?_, h.2⟩
  obtain ⟨la, hbid, hmem1, hmem2, -, -, heq⟩ :=
    h.1 (by simp [bookEx]) (by simp [bookEx])
  have hla : la = ⟨101, 50⟩ := by
    simpa [displayedAsks, bookEx] using hmem1
  have hhb : hbid = ⟨99, 30⟩ := by
    simpa [displayedBids, bookEx] using hmem2
  rw [hla, hhb] at heq
  rw [heq]
  norm_num

/- ===========================
   C8: chat / news re-render gating (renderChat, lines 487-510)
   =========================== -/

/-- The chat panel's DOM as the renderer sees it: the rendered message
rows (`childElementCount` is their number), the rendered news items, and
the scroll offset of the message container. -/
structure ChatDom where
  shown : List ChatMsg
  newsShown : List ChatMsg
  scrollTop : Nat
deriving DecidableEq

/-- The scroll height of the rendered message list, one unit per row. -/
def chatScrollHeight (msgs : List ChatMsg) : Nat := msgs.length

/-- The method `UIController.renderChat` (lines 487-510): skip everything when the
incoming length equals the rendered row count; otherwise rebuild the
message list, scroll it to the bottom, and rebuild the news feed from the
system-flagged messages. -/
def renderChat (messages : List ChatMsg) (dom : ChatDom) : ChatDom :=
  if messages.length = dom.shown.length then dom
  else
    { shown := messages,
      newsShown := messages.filter (fun m => m.is_system),
      scrollTop := chatScrollHeight messages }

/-- Claim C8: the chat list and derived news feed are rebuilt exactly when
the incoming chat length differs from the rendered count — an equal length
takes the skip path and leaves the whole panel (scroll position included)
untouched, and a second update of the same length after any first update
is always skipped. -/
theorem renderChat_skip_iff_same_length (messages : List ChatMsg) (dom : ChatDom) :
    (messages.length = dom.shown.length → renderChat messages dom = dom) ∧
      (messages.length ≠ dom.shown.length →
        (renderChat messages dom).shown = messages ∧
          (renderChat messages dom).newsShown = messages.filter (fun m => m.is_system) ∧
          (renderChat messages dom).scrollTop = chatScrollHeight messages) ∧
      (∀ m2 : List ChatMsg, m2.length = messages.length →
        renderChat m2 (renderChat messages dom) = renderChat messages dom) := by
  refine ⟨fun h => by rw [renderChat, if_pos h], fun h => ⟨?_, ?_, ?_⟩, fun m2 h2 => ?_⟩
  · rw [renderChat, if_neg h]
  · rw [renderChat, if_neg h]
  · rw [renderChat, if_neg h]
  · by_cases h : messages.length = dom.shown.length
    · have hinner : renderChat messages dom = dom := by rw [renderChat, if_pos h]
      rw [hinner, renderChat, if_pos (h2.trans h)]
    · have hshown : (renderChat messages dom).shown = messages := by
        rw [renderChat, if_neg h]
      rw [renderChat, if_pos (by rw [hshown]; exact h2)]

/-- Witness for C8: a one-message update rebuilds the empty panel; feeding
a different one-message list immediately afterwards is skipped and leaves
the panel, scroll position included, exactly as it was. -/
def chatMsgEx1 : ChatMsg := ⟨"12:00", some "alice", "hi", false⟩

/-- A second, different message of the same length-one batch. -/
def chatMsgEx2 : ChatMsg := ⟨"12:01", none, "CRASH imminent", true⟩

/-- Empty chat panel before any render. -/
def chatDomEx : ChatDom := ⟨[], [], 0⟩

theorem renderChat_skip_iff_same_length_witness :
    ([chatMsgEx1].length ≠ chatDomEx.shown.length ∧
        (renderChat [chatMsgEx1] chatDomEx).shown = [chatMsgEx1]) ∧
      renderChat [chatMsgEx2] (renderChat [chatMsgEx1] chatDomEx) =
        renderChat [chatMsgEx1] chatDomEx :=
  ⟨⟨by decide,
      ((renderChat_skip_iff_same_length [chatMsgEx1] chatDomEx).2.1 (by decide)).1⟩,
    (renderChat_skip_iff_same_length [chatMsgEx1] chatDomEx).2.2 [chatMsgEx2] rfl⟩

end MarketCrash
